import Mathlib

/-!
Verification development for the Book Worm AI backend (src/main.py).

The backend is a FastAPI application over SQLite.  We embed its data model
and request handlers shallowly: SQLite rows become structures, the set of
tables becomes an explicit `DBState`, each handler becomes a pure function
from (inputs, state) to (result, state).  Timestamps are modelled as `Int`
seconds; an ISO timestamp column that may fail to parse with
`datetime.fromisoformat` is modelled as `Option Int` (`none` = unparseable).
HTTP outcomes are `Except Nat _` or an explicit result type, the `Nat`
carrying the HTTP status of the raised `HTTPException`.
-/

namespace Bookworm

/-- One day in seconds: `timedelta(days=1)`. -/
def day : Int := 86400

/-- Python `str.strip()`: drop whitespace from both ends.  Defined over the
character list so that it computes by structural recursion. -/
def pyStrip (s : String) : String :=
  ⟨((s.data.dropWhile Char.isWhitespace).reverse.dropWhile Char.isWhitespace).reverse⟩

/-- Python `str.lower()` (ASCII case folding, as every string the backend
compares is ASCII). -/
def pyLower (s : String) : String :=
  ⟨s.data.map Char.toLower⟩

/-- A row of the `users` table (src/main.py:118).  `created_at` holds the
result of `datetime.fromisoformat(created_at_text)`: `none` when the stored
text is unparseable.  `is_owner` is the 0/1 integer column read as a Bool. -/
structure UserRow where
  id : Nat
  email : String
  pass_hash : String
  pass_salt : String
  created_at : Option Int
  is_owner : Bool
  stripe_customer_id : String
  plan : String
  subscription_status : String
deriving Repr, DecidableEq

/-- A row of the `sessions` table (src/main.py:130).  `expires_at` is the
parsed expiry instant (always written by the code itself via `isoformat`,
hence always parseable). -/
structure SessionRow where
  id : Nat
  user_id : Nat
  token : String
  expires_at : Int
  is_owner : Bool
deriving Repr, DecidableEq

/-- A row of the `subscriptions` table (src/main.py:180). -/
structure SubRow where
  id : Nat
  user_id : Nat
  stripe_customer_id : String
  stripe_subscription_id : String
  status : String
  plan : String
deriving Repr, DecidableEq

/-- A row of the `messages` table (src/main.py:149); the id and timestamp
columns are not needed by any claim. -/
structure MsgRow where
  user_id : Nat
  tab : String
  role : String
  content : String
deriving Repr, DecidableEq

/-- A row of the `analytics_events` table (src/main.py:171).  The code
stores `meta_json = json.dumps(.tab := tab.)`; we keep the tab directly. -/
structure EventRow where
  user_id : Nat
  event : String
  tab : String
deriving Repr, DecidableEq

/-- The database state: the tables touched by the claims plus the sqlite
AUTOINCREMENT counters for the tables whose generated ids matter. -/
structure DBState where
  users : List UserRow
  sessions : List SessionRow
  subs : List SubRow
  messages : List MsgRow
  events : List EventRow
  nextUserId : Nat
  nextSessionId : Nat
  nextSubId : Nat
deriving Repr, DecidableEq

/-- `SELECT * FROM sessions WHERE token = ?` with `fetchone()` (the token
column is UNIQUE, so first match is the match). -/
def findSession (sessions : List SessionRow) (token : String) : Option SessionRow :=
  sessions.find? (fun s => s.token = token)

/-- `SELECT * FROM users WHERE id = ?` with `fetchone()`. -/
def findUser (users : List UserRow) (uid : Nat) : Option UserRow :=
  users.find? (fun u => u.id = uid)

/-- `is_owner_session` (src/main.py:302): empty token or no row means
not an owner session; otherwise the session's `is_owner` column. -/
def is_owner_session (sessions : List SessionRow) (token : String) : Bool :=
  if token = "" then false
  else
    match findSession sessions token with
    | none => false
    | some s => s.is_owner

/-- `user_in_free_trial` (src/main.py:330): parse `created_at`; a parse
failure is swallowed by `except: return True`; otherwise the trial holds
while `created + timedelta(days=30) > now`. -/
def user_in_free_trial (created_at : Option Int) (now : Int) : Bool :=
  match created_at with
  | none => true
  | some created => decide (created + 30 * day > now)

/-- `SELECT status FROM subscriptions WHERE user_id = ? ORDER BY id DESC
LIMIT 1`: the matching row with the greatest id. -/
def latestSubFor : List SubRow → Nat → Option SubRow
  | [], _ => none
  | r :: rest, uid =>
    let b := latestSubFor rest uid
    if r.user_id = uid then
      match b with
      | none => some r
      | some b => if b.id < r.id then some r else some b
    else b

/-- `user_has_active_subscription` (src/main.py:337): no row means false;
otherwise the latest row's lower-cased status must be active/trialing. -/
def user_has_active_subscription (subs : List SubRow) (uid : Nat) : Bool :=
  match latestSubFor subs uid with
  | none => false
  | some r => pyLower r.status = "active" || pyLower r.status = "trialing"

/-- Outcome of `require_access`: return (allowed), an `HTTPException`
status, or an uncaught Python error (which FastAPI surfaces as HTTP 500). -/
inductive GateResult where
  | allowed
  | denied (status : Nat)
  | attrError
deriving Repr, DecidableEq

/-- `require_access` (src/main.py:350), translated as executed.  The guard
is `is_owner_session(request) or int(user.get("is_owner", 0) or 0) == 1`.
When `is_owner_session` is false, Python evaluates `user.get(...)` on a
`sqlite3.Row`; `sqlite3.Row` has no `get` method, so an AttributeError
escapes the handler.  The trial check, the subscription check and the
402 `HTTPException` in the source are therefore unreachable whenever the
session is not an owner session. -/
def require_access (st : DBState) (token : String) (u : UserRow) (now : Int) : GateResult :=
  if is_owner_session st.sessions token then .allowed
  else .attrError

/-- The gate as the comments of `require_access` describe it ("Owner always
allowed", "Trial allowed", "Paid subscription required"), i.e. the source
with the `user.get("is_owner", 0)` slip read as the evidently intended
`user["is_owner"]` column access.  Kept separate from `require_access`,
which models the code as executed. -/
def require_access_intended (st : DBState) (token : String) (u : UserRow) (now : Int) : GateResult :=
  if is_owner_session st.sessions token || u.is_owner then .allowed
  else if user_in_free_trial u.created_at now then .allowed
  else if user_has_active_subscription st.subs u.id then .allowed
  else .denied 402

/-- `get_current_user` (src/main.py:270).  Returns the resolved user row or
the 401 `HTTPException` status, together with the possibly-mutated state:
an expired session row is deleted (`DELETE FROM sessions WHERE id = ?`)
before the 401 is raised; all other paths leave the state untouched. -/
def get_current_user (st : DBState) (token : String) (now : Int) :
    (Except Nat UserRow) × DBState :=
  if token = "" then (.error 401, st)
  else
    match findSession st.sessions token with
    | none => (.error 401, st)
    | some sess =>
      if sess.expires_at < now then
        (.error 401, { st with sessions := st.sessions.filter (fun s => ¬ s.id = sess.id) })
      else
        match findUser st.users sess.user_id with
        | none => (.error 401, st)
        | some u => (.ok u, st)

/-- `SESSION_TTL_DAYS` default (src/main.py:54). -/
def SESSION_TTL_DAYS : Int := 30

/-- The session INSERT shared by `auth_register` (src/main.py:503) and
`auth_login` (src/main.py:532): a fresh random token, expiry now + TTL,
and `is_owner` hard-coded to 0. -/
def create_session (st : DBState) (uid : Nat) (token : String) (now : Int) : DBState :=
  { st with
    sessions := st.sessions ++
      [{ id := st.nextSessionId, user_id := uid, token := token,
         expires_at := now + SESSION_TTL_DAYS * day, is_owner := false }],
    nextSessionId := st.nextSessionId + 1 }

/-- Models `pbkdf2_hash` (src/main.py:219): deterministic in (password,
salt) and injective, which is all the claims rely on; the actual
PBKDF2-HMAC-SHA256 derivation is outside the embedding. -/
def pbkdf2_hash (password salt : String) : String :=
  salt ++ "|" ++ password

/-- Models `hmac.compare_digest`: a timing-safe equality whose result is
plain string equality. -/
def constantTimeEq (a b : String) : Bool :=
  a = b

/-- Email normalization used by register/login/webhook: `.strip().lower()`. -/
def normEmail (e : String) : String :=
  pyLower (pyStrip e)

/-- `auth_register` (src/main.py:476).  Password is stripped and must be at
least 6 characters (400).  The INSERT hits the UNIQUE(email) constraint
when the normalized email exists, and the `sqlite3.IntegrityError` is
turned into a 409 "Account already exists. Please log in.".  On success a
user row and a fresh non-owner session are inserted. -/
def auth_register (st : DBState) (rawEmail rawPassword salt newToken : String) (now : Int) :
    (Except (Nat × String) Unit) × DBState :=
  let email := normEmail rawEmail
  let password := pyStrip rawPassword
  if password.length < 6 then
    (.error (400, "Password must be at least 6 characters"), st)
  else if st.users.any (fun u => u.email = email) then
    (.error (409, "Account already exists. Please log in."), st)
  else
    let st1 : DBState :=
      { st with
        users := st.users ++
          [{ id := st.nextUserId, email := email,
             pass_hash := pbkdf2_hash password salt, pass_salt := salt,
             created_at := some now, is_owner := false,
             stripe_customer_id := "", plan := "free",
             subscription_status := "none" }],
        nextUserId := st.nextUserId + 1 }
    (.ok (), create_session st1 st.nextUserId newToken now)

/-- `auth_login` (src/main.py:515): look up the normalized email, verify
the PBKDF2 hash with `hmac.compare_digest`, and on success insert a fresh
non-owner session.  Both failure modes are the same generic 401. -/
def auth_login (st : DBState) (rawEmail rawPassword newToken : String) (now : Int) :
    (Except Nat Unit) × DBState :=
  let email := normEmail rawEmail
  let password := pyStrip rawPassword
  match st.users.find? (fun u => u.email = email) with
  | none => (.error 401, st)
  | some u =>
    if constantTimeEq (pbkdf2_hash password u.pass_salt) u.pass_hash then
      (.ok (), create_session st u.id newToken now)
    else (.error 401, st)

/-- `auth_logout` (src/main.py:544): `DELETE FROM sessions WHERE token = ?`
when a token is present. -/
def auth_logout (st : DBState) (token : String) : DBState :=
  if token = "" then st
  else { st with sessions := st.sessions.filter (fun s => ¬ s.token = token) }

/-- `owner_login` (src/main.py:590).  Empty configured code is 500; a code
failing the `hmac.compare_digest` check is 401; then the caller must
resolve via `get_current_user` (its 401s — and its expired-session
deletion — propagate); on success the handler sets `is_owner = 1` both on
the session row (by token) and on the user row (by id). -/
def owner_login (st : DBState) (ownerCode code token : String) (now : Int) :
    (Except Nat Unit) × DBState :=
  if ownerCode = "" then (.error 500, st)
  else if ¬ constantTimeEq code ownerCode then (.error 401, st)
  else
    match get_current_user st token now with
    | (.error e, st1) => (.error e, st1)
    | (.ok u, st1) =>
      if token = "" then (.error 401, st1)
      else
        (.ok (),
          { st1 with
            sessions := st1.sessions.map
              (fun s => if s.token = token then { s with is_owner := true } else s),
            users := st1.users.map
              (fun v => if v.id = u.id then { v with is_owner := true } else v) })

/-- The owner gate of `admin_analytics` (src/main.py:636): after
`get_current_user` resolves, a non-owner session is rejected with 403. -/
def admin_analytics_gate (st : DBState) (token : String) : Except Nat Unit :=
  if ¬ is_owner_session st.sessions token then .error 403 else .ok ()

/-- `normalize_tab` (src/main.py:366): strip + lower, then the alias table;
an unknown non-empty tab passes through, an empty one becomes "chat". -/
def normalize_tab (tab : String) : String :=
  let t := pyLower (pyStrip tab)
  if t = "chat" then "chat"
  else if t = "story" then "writing"
  else if t = "book" then "writing"
  else if t = "writing" then "writing"
  else if t = "game" then "gamedev"
  else if t = "gamedev" then "gamedev"
  else if t = "music" then "musicdev"
  else if t = "musicdev" then "musicdev"
  else if t = "image" then "imagelab"
  else if t = "imagelab" then "imagelab"
  else if t = "voice" then "voicelab"
  else if t = "voicelab" then "voicelab"
  else if t = "designer" then "gamedesigner"
  else if t = "gamedesigner" then "gamedesigner"
  else if t = "" then "chat"
  else t

/-- `store_message` (src/main.py:386): INSERT into `messages`, normalizing
the tab (again — the caller already normalized; the function re-applies). -/
def store_message (st : DBState) (uid : Nat) (tab role content : String) : DBState :=
  { st with messages := st.messages ++ [{ user_id := uid, tab := normalize_tab tab, role := role, content := content }] }

/-- Outcome of the outbound `client.responses.create` call in `generate`:
either a response whose robust extraction yields `text` (possibly empty),
or a raised exception with a class name and a message, where `str(e)`
renders the message. -/
inductive ProviderOutcome where
  | ok (text : String)
  | exn (cls msg : String)
deriving Repr, DecidableEq

/-- The body stored/returned when the API key is missing (src/main.py:750). -/
def keyMissingNotice : String :=
  "⚠ OPENAI_API_KEY is not configured on this server.\nSet OPENAI_API_KEY in Render Environment Variables, then restart the service."

/-- The assistant text computed from the provider outcome inside the
try/except of `generate` (src/main.py:765): extracted text, with the
`"⚠ No text returned."` fallback when extraction is empty, and
`f"⚠ AI error: .str(e)."` when the call raises. -/
def provider_text : ProviderOutcome → String
  | .ok t => if t = "" then "⚠ No text returned." else t
  | .exn _ msg => "⚠ AI error: " ++ msg

/-- `generate` (src/main.py:737).  Order of effects: access gate (whose
AttributeError path we surface as 500), prompt validation (400), store the
user turn, then either the key-missing notice (stored, no analytics
event), or the provider call whose text/error is stored as the assistant
turn followed by a `generate` analytics event. -/
def generate (st : DBState) (u : UserRow) (token : String) (now : Int)
    (tab prompt : String) (configured : Bool) (pr : ProviderOutcome) :
    (Except Nat String) × DBState :=
  match require_access st token u now with
  | .denied s => (.error s, st)
  | .attrError => (.error 500, st)
  | .allowed =>
    let tb := normalize_tab tab
    let p := pyStrip prompt
    if p = "" then (.error 400, st)
    else
      let st1 := store_message st u.id tb "user" p
      if configured then
        let text := provider_text pr
        let st2 := store_message st1 u.id tb "assistant" text
        let st3 := { st2 with events := st2.events ++ [{ user_id := u.id, event := "generate", tab := tb }] }
        (.ok text, st3)
      else
        let st2 := store_message st1 u.id tb "assistant" keyMissingNotice
        (.ok keyMissingNotice, st2)

/-- The `data.object` of a `checkout.session.completed` event, with the
fields the handler reads.  `meta_user_id` is the already-`int(...)`-parsed
`metadata["user_id"]` (`none` when absent or unparseable); `email` is
`customer_details.email or customer_email or ""`. -/
structure CheckoutObj where
  customer : String
  subscription : String
  email : String
  meta_user_id : Option Nat
  meta_plan : Option String
deriving Repr, DecidableEq

/-- The `data.object` of a `customer.subscription.updated/deleted` event.
`price_id` is `items.data[0].price.id`: `none` when the items list is
empty or reading it raised (the code swallows that with try/except). -/
structure SubEventObj where
  customer : String
  id : String
  status : String
  price_id : Option String
deriving Repr, DecidableEq

inductive StripeEvent where
  | checkoutCompleted (o : CheckoutObj)
  | subscriptionUpdated (o : SubEventObj)
  | subscriptionDeleted (o : SubEventObj)
  | other
deriving Repr, DecidableEq

/-- The configured price ids compared against in the webhook
(src/main.py:936): `STRIPE_PRO_PRICE_ID` and `STRIPE_PATRON_PRICE_ID`. -/
structure StripeConfig where
  pro_price_id : String
  patron_price_id : String
deriving Repr, DecidableEq

/-- The plan computed by the `customer.subscription.updated/deleted` branch
(src/main.py:929): start from "basic"; with a readable first line item,
compare its stripped price id against the pro/patron configured ids, any
other id (or a raised read, or no items) leaving "basic". -/
def planFromPrice (cfg : StripeConfig) (price_id : Option String) : String :=
  match price_id with
  | none => "basic"
  | some p =>
    let pid := pyStrip p
    if pid = cfg.pro_price_id then "pro"
    else if pid = cfg.patron_price_id then "patron"
    else "basic"

/-- User resolution of the `checkout.session.completed` branch
(src/main.py:899): metadata `user_id` preferred, else lookup of the
normalized email when non-empty. -/
def resolve_checkout_user (users : List UserRow) (o : CheckoutObj) : Option Nat :=
  match o.meta_user_id with
  | some n => some n
  | none =>
    if o.email = "" then none
    else
      match users.find? (fun u => u.email = normEmail o.email) with
      | some u => some u.id
      | none => none

/-- `(meta.get("plan") or "basic").strip().lower()` (src/main.py:913). -/
def checkoutPlan (o : CheckoutObj) : String :=
  pyLower (pyStrip (match o.meta_plan with
   | some p => if p = "" then "basic" else p
   | none => "basic"))

/-- The `checkout.session.completed` branch (src/main.py:894): resolve the
user; if resolved, store the customer id on the user row and INSERT (not
upsert) a subscription row with status "trialing". -/
def handleCheckoutCompleted (o : CheckoutObj) (st : DBState) : DBState :=
  match resolve_checkout_user st.users o with
  | none => st
  | some uid =>
    { st with
      users := st.users.map
        (fun u => if u.id = uid then { u with stripe_customer_id := o.customer } else u),
      subs := st.subs ++
        [{ id := st.nextSubId, user_id := uid,
           stripe_customer_id := o.customer,
           stripe_subscription_id := o.subscription,
           status := "trialing", plan := checkoutPlan o }],
      nextSubId := st.nextSubId + 1 }

/-- The `customer.subscription.updated/deleted` branch (src/main.py:925):
status `(obj.get("status","") or "none").lower()`, plan from the price id,
user found by stored stripe customer id, then an upsert keyed by
(user_id, stripe_subscription_id). -/
def handleSubscriptionEvent (cfg : StripeConfig) (o : SubEventObj) (st : DBState) : DBState :=
  let status := pyLower (if o.status = "" then "none" else o.status)
  let plan := planFromPrice cfg o.price_id
  match st.users.find? (fun u => u.stripe_customer_id = o.customer) with
  | none => st
  | some u =>
    match st.subs.find? (fun r => r.user_id = u.id ∧ r.stripe_subscription_id = o.id) with
    | some ex =>
      let updated := st.subs.map
        (fun r => if r.id = ex.id then { r with status := status, plan := plan } else r)
      { st with subs := updated }
    | none =>
      { st with
        subs := st.subs ++
          [{ id := st.nextSubId, user_id := u.id,
             stripe_customer_id := o.customer,
             stripe_subscription_id := o.id,
             status := status, plan := plan }],
        nextSubId := st.nextSubId + 1 }

/-- `stripe_webhook` (src/main.py:871) as (HTTP status, state).  Missing
configuration is 500 before reading the body; a failing
`stripe.Webhook.construct_event` signature verification is 400, reached
before any database access; a verified event dispatches on its type, and
unhandled types are acknowledged unchanged. -/
def stripe_webhook (cfg : StripeConfig) (configured secretSet sigValid : Bool)
    (ev : StripeEvent) (st : DBState) : Nat × DBState :=
  if ¬ (configured && secretSet) then (500, st)
  else if ¬ sigValid then (400, st)
  else
    match ev with
    | .checkoutCompleted o => (200, handleCheckoutCompleted o st)
    | .subscriptionUpdated o => (200, handleSubscriptionEvent cfg o st)
    | .subscriptionDeleted o => (200, handleSubscriptionEvent cfg o st)
    | .other => (200, st)

/-! ## Claim theorems -/

/-- C10: a `users.created_at` value that `datetime.fromisoformat` cannot
parse makes `user_in_free_trial` return true — the parse error is
swallowed and the user is treated as inside the trial window at every
instant, rather than the check raising or denying. -/
theorem trial_parse_failure_grants_trial (now : Int) :
    user_in_free_trial none now = true := rfl

/-- C5: a webhook delivery that fails `stripe.Webhook.construct_event`
signature verification is rejected with HTTP 400 and the database state is
returned exactly as it was — no user or subscription mutation happens on
an unverified payload, whatever the event and whatever the state. -/
theorem webhook_bad_signature_rejected_no_mutation
    (cfg : StripeConfig) (ev : StripeEvent) (st : DBState) :
    stripe_webhook cfg true true false ev st = (400, st) := rfl

/-- C1: the three-tier gate.  As executed, `require_access` crashes with
an AttributeError (HTTP 500) on every non-owner session, because
`user.get("is_owner", 0)` is called on a `sqlite3.Row`, which has no
`get` method — so the trial and subscription tiers, and the 402, are
unreachable; in particular a user created at T0 with no subscription gets
a 500 (not access) at T0 + 29 days.  The intended gate — the source with
`user["is_owner"]` — does evaluate the claimed tiers in the claimed
priority order: owner session or user flag always allowed, then the
30-day trial, then an active/trialing subscription, else 402; it allows
at T0 + 29 days and denies with 402 at T0 + 31 days. -/
theorem access_gate_tiers_vs_executed (st : DBState) (token : String)
    (u : UserRow) (now t0 : Int) (hc : u.created_at = some t0) :
    (is_owner_session st.sessions token = false →
      require_access st token u now = .attrError)
    ∧ (is_owner_session st.sessions token = true →
      require_access st token u now = .allowed
      ∧ require_access_intended st token u now = .allowed)
    ∧ (u.is_owner = true → require_access_intended st token u now = .allowed)
    ∧ (now < t0 + 30 * day → require_access_intended st token u now = .allowed)
    ∧ (user_has_active_subscription st.subs u.id = true →
      require_access_intended st token u now = .allowed)
    ∧ (is_owner_session st.sessions token = false → u.is_owner = false →
      ¬ now < t0 + 30 * day → user_has_active_subscription st.subs u.id = false →
      require_access_intended st token u now = .denied 402)
    ∧ (is_owner_session st.sessions token = false → u.is_owner = false →
      user_has_active_subscription st.subs u.id = false →
      require_access_intended st token u (t0 + 29 * day) = .allowed
      ∧ require_access_intended st token u (t0 + 31 * day) = .denied 402
      ∧ require_access st token u (t0 + 29 * day) = .attrError) := by
  refine ⟨?_, ?_, ?_, ?_, ?_, ?_, ?_⟩
  · intro hsess; simp [require_access, hsess]
  · intro hsess
    exact ⟨by simp [require_access, hsess], by simp [require_access_intended, hsess]⟩
  · intro hflag; simp [require_access_intended, hflag]
  · intro htrial
    have ht : user_in_free_trial u.created_at now = true := by
      simp only [user_in_free_trial, hc, decide_eq_true_eq]; omega
    simp [require_access_intended, ht]
  · intro hsub
    by_cases hsess : is_owner_session st.sessions token = true
    · simp [require_access_intended, hsess]
    · by_cases hflag : u.is_owner = true
      · simp [require_access_intended, hflag]
      · by_cases ht : user_in_free_trial u.created_at now = true
        · simp [require_access_intended, ht]
        · simp only [Bool.not_eq_true] at hsess hflag ht
          simp [require_access_intended, hsess, hflag, ht, hsub]
  · intro hsess hflag htrial hsub
    have ht : user_in_free_trial u.created_at now = false := by
      simp only [user_in_free_trial, hc, decide_eq_false_iff_not]; omega
    simp [require_access_intended, hsess, hflag, ht, hsub]
  · intro hsess hflag hsub
    have h29 : user_in_free_trial u.created_at (t0 + 29 * day) = true := by
      simp only [user_in_free_trial, hc, decide_eq_true_eq, day]; omega
    have h31 : user_in_free_trial u.created_at (t0 + 31 * day) = false := by
      simp only [user_in_free_trial, hc, decide_eq_false_iff_not, day]; omega
    refine ⟨by simp [require_access_intended, h29],
      by simp [require_access_intended, hsess, hflag, h31, hsub],
      by simp [require_access, hsess]⟩

/-- Witness for C1 at a concrete input: a user created at time 0 with no
subscription rows and a non-owner (empty-session) state. -/
theorem access_gate_tiers_vs_executed_witness :
    require_access_intended
        { users := [], sessions := [], subs := [], messages := [], events := [],
          nextUserId := 1, nextSessionId := 1, nextSubId := 1 } ""
        { id := 1, email := "u@example.com", pass_hash := "h", pass_salt := "s",
          created_at := some 0, is_owner := false, stripe_customer_id := "",
          plan := "free", subscription_status := "none" }
        (0 + 29 * day) = .allowed
    ∧ require_access_intended
        { users := [], sessions := [], subs := [], messages := [], events := [],
          nextUserId := 1, nextSessionId := 1, nextSubId := 1 } ""
        { id := 1, email := "u@example.com", pass_hash := "h", pass_salt := "s",
          created_at := some 0, is_owner := false, stripe_customer_id := "",
          plan := "free", subscription_status := "none" }
        (0 + 31 * day) = .denied 402
    ∧ require_access
        { users := [], sessions := [], subs := [], messages := [], events := [],
          nextUserId := 1, nextSessionId := 1, nextSubId := 1 } ""
        { id := 1, email := "u@example.com", pass_hash := "h", pass_salt := "s",
          created_at := some 0, is_owner := false, stripe_customer_id := "",
          plan := "free", subscription_status := "none" }
        (0 + 29 * day) = .attrError :=
  (access_gate_tiers_vs_executed
      { users := [], sessions := [], subs := [], messages := [], events := [],
        nextUserId := 1, nextSessionId := 1, nextSubId := 1 } ""
      { id := 1, email := "u@example.com", pass_hash := "h", pass_salt := "s",
        created_at := some 0, is_owner := false, stripe_customer_id := "",
        plan := "free", subscription_status := "none" }
      0 0 rfl).2.2.2.2.2.2 rfl rfl rfl

/-- C7: a session token resolves to the same user row while
`expires_at < now` is false (so up to and including the expiry instant);
once past expiry, resolution yields 401 — an `HTTPException`, not an
uncaught error — deletes the expired session row, and a second resolution
attempt with the same token no longer finds a row (again 401).  The
uniqueness hypothesis mirrors the UNIQUE constraint on `sessions.token`. -/
theorem session_resolution_until_expiry (st : DBState) (token : String)
    (now later : Int) (sess : SessionRow) (u : UserRow)
    (htok : ¬ token = "")
    (hfind : findSession st.sessions token = some sess)
    (huniq : ∀ s ∈ st.sessions, s.token = token → s = sess)
    (huser : findUser st.users sess.user_id = some u) :
    (¬ sess.expires_at < now → get_current_user st token now = (.ok u, st))
    ∧ (sess.expires_at < later →
        (get_current_user st token later).1 = .error 401
        ∧ findSession (get_current_user st token later).2.sessions token = none
        ∧ (get_current_user (get_current_user st token later).2 token later).1
            = .error 401) := by
  constructor
  · intro hlive
    simp [get_current_user, htok, hfind, hlive, huser]
  · intro hexp
    have hdel : (get_current_user st token later).2.sessions
        = st.sessions.filter (fun s => ¬ s.id = sess.id) := by
      simp [get_current_user, htok, hfind, hexp]
    have hnone : findSession (st.sessions.filter (fun s => ¬ s.id = sess.id)) token
        = none := by
      apply List.find?_eq_none.2
      intro x hx
      simp only [List.mem_filter, decide_eq_true_eq] at hx
      intro hxtok
      simp only [decide_eq_true_eq] at hxtok
      exact hx.2 (by rw [huniq x hx.1 hxtok])
    refine ⟨by simp [get_current_user, htok, hfind, hexp], by rw [hdel]; exact hnone, ?_⟩
    rw [get_current_user, if_neg htok, hdel, hnone]

/-- Witness for C7: one live-then-expired session for user 1 with token
"tok", expiring at time 100, resolved at 50 and again at 200. -/
theorem session_resolution_until_expiry_witness :
    (get_current_user
        { users := [{ id := 1, email := "u@example.com", pass_hash := "h",
                      pass_salt := "s", created_at := some 0, is_owner := false,
                      stripe_customer_id := "", plan := "free",
                      subscription_status := "none" }],
          sessions := [{ id := 7, user_id := 1, token := "tok",
                         expires_at := 100, is_owner := false }],
          subs := [], messages := [], events := [],
          nextUserId := 2, nextSessionId := 8, nextSubId := 1 } "tok" 50).1
      = .ok { id := 1, email := "u@example.com", pass_hash := "h",
              pass_salt := "s", created_at := some 0, is_owner := false,
              stripe_customer_id := "", plan := "free",
              subscription_status := "none" }
    ∧ (get_current_user
        { users := [{ id := 1, email := "u@example.com", pass_hash := "h",
                      pass_salt := "s", created_at := some 0, is_owner := false,
                      stripe_customer_id := "", plan := "free",
                      subscription_status := "none" }],
          sessions := [{ id := 7, user_id := 1, token := "tok",
                         expires_at := 100, is_owner := false }],
          subs := [], messages := [], events := [],
          nextUserId := 2, nextSessionId := 8, nextSubId := 1 } "tok" 200).1
      = .error 401 := by
  have h := session_resolution_until_expiry
    { users := [{ id := 1, email := "u@example.com", pass_hash := "h",
                  pass_salt := "s", created_at := some 0, is_owner := false,
                  stripe_customer_id := "", plan := "free",
                  subscription_status := "none" }],
      sessions := [{ id := 7, user_id := 1, token := "tok",
                     expires_at := 100, is_owner := false }],
      subs := [], messages := [], events := [],
      nextUserId := 2, nextSessionId := 8, nextSubId := 1 } "tok" 50 200
    { id := 7, user_id := 1, token := "tok", expires_at := 100, is_owner := false }
    { id := 1, email := "u@example.com", pass_hash := "h", pass_salt := "s",
      created_at := some 0, is_owner := false, stripe_customer_id := "",
      plan := "free", subscription_status := "none" }
    (by decide) rfl (by decide) rfl
  exact ⟨by rw [h.1 (by decide)], (h.2 (by decide)).1⟩

/-- A state with an owner-flagged session for user 1 (so the access gate
returns allowed), used for the generation-gateway claims. -/
def genFixtureState : DBState :=
  { users := [{ id := 1, email := "u@example.com", pass_hash := "h",
                pass_salt := "s", created_at := some 0, is_owner := false,
                stripe_customer_id := "", plan := "free",
                subscription_status := "none" }],
    sessions := [{ id := 3, user_id := 1, token := "t1",
                   expires_at := 1000, is_owner := true }],
    subs := [], messages := [], events := [],
    nextUserId := 2, nextSessionId := 4, nextSubId := 1 }

/-- The user row resolved for the session in `genFixtureState`. -/
def genFixtureUser : UserRow :=
  { id := 1, email := "u@example.com", pass_hash := "h", pass_salt := "s",
    created_at := some 0, is_owner := false, stripe_customer_id := "",
    plan := "free", subscription_status := "none" }

/-- C4 counterexample: an access-allowed request with prompt "hello" whose
provider call raises a "TimeoutError" with message "boom" gets the normal
response "⚠ AI error: boom" — `f"⚠ AI error: .str(e)."` renders only the
exception message, so the error class "TimeoutError" does not occur
anywhere in the body, contradicting the claim that the marker embeds the
error class and message. -/
theorem generate_error_body_lacks_class :
    (generate genFixtureState genFixtureUser "t1" 0 "chat" "hello" true
        (.exn "TimeoutError" "boom")).1 = .ok "⚠ AI error: boom"
    ∧ ¬ ("TimeoutError".data <:+: ("⚠ AI error: boom").data) :=
  ⟨rfl, by decide⟩

/-- C4 amended: for every access-allowed request with a non-empty stripped
prompt, when the provider call raises any exception the endpoint returns a
normal (HTTP 200) response — never a transport-level error — whose body is
the warning marker "⚠ AI error: " followed by the string rendering of the
exception (its message, not its class name). -/
theorem generate_provider_failure_returns_marker (st : DBState) (u : UserRow)
    (token tab prompt cls msg : String) (now : Int)
    (hacc : require_access st token u now = .allowed)
    (hp : ¬ pyStrip prompt = "") :
    (generate st u token now tab prompt true (.exn cls msg)).1
      = .ok ("⚠ AI error: " ++ msg) := by
  simp [generate, hacc, hp, provider_text]

/-- Witness for C4 at a concrete input: owner session, prompt "hi",
provider raising class "APIError" with message "down". -/
theorem generate_provider_failure_returns_marker_witness :
    (generate genFixtureState genFixtureUser "t1" 0 "chat" "hi" true
        (.exn "APIError" "down")).1 = .ok ("⚠ AI error: " ++ "down") :=
  generate_provider_failure_returns_marker genFixtureState genFixtureUser
    "t1" "chat" "hi" "APIError" "down" 0 rfl (by decide)

/-- C8 counterexample: a request that passes validation and access gating
(owner session, prompt "hello") taken when the OpenAI client is not
configured stores the user turn and the error notice as the assistant
turn, returns normally — but appends no analytics event at all (the
events table stays empty), contradicting "appends an analytics event ...
on every path". -/
theorem generate_unconfigured_skips_analytics :
    (generate genFixtureState genFixtureUser "t1" 0 "chat" "hello" false
        (.ok "unused")).1 = .ok keyMissingNotice
    ∧ (generate genFixtureState genFixtureUser "t1" 0 "chat" "hello" false
        (.ok "unused")).2.messages
      = [{ user_id := 1, tab := "chat", role := "user", content := "hello" },
         { user_id := 1, tab := "chat", role := "assistant", content := keyMissingNotice }]
    ∧ (generate genFixtureState genFixtureUser "t1" 0 "chat" "hello" false
        (.ok "unused")).2.events = [] :=
  ⟨rfl, rfl, rfl⟩

/-- C8 amended: for every request that passes validation and access
gating, the handler persists the user turn and then the assistant turn
(the provider text or error text) into message history before returning.
The analytics event tagged with the resolved tab is appended on the paths
where the provider client is configured — on provider success and failure
alike — but not on the key-missing path, which stores both turns (the
configuration notice as assistant turn) and appends no event. -/
theorem generate_persists_turns_and_tagged_analytics (st : DBState)
    (u : UserRow) (token tab prompt : String) (now : Int) (pr : ProviderOutcome)
    (hacc : require_access st token u now = .allowed)
    (hp : ¬ pyStrip prompt = "") :
    ((generate st u token now tab prompt true pr).2.messages
      = st.messages ++
        [{ user_id := u.id, tab := normalize_tab (normalize_tab tab),
           role := "user", content := pyStrip prompt },
         { user_id := u.id, tab := normalize_tab (normalize_tab tab),
           role := "assistant", content := provider_text pr }]
    ∧ (generate st u token now tab prompt true pr).2.events
      = st.events ++ [{ user_id := u.id, event := "generate",
                        tab := normalize_tab tab }])
    ∧ ((generate st u token now tab prompt false pr).2.messages
      = st.messages ++
        [{ user_id := u.id, tab := normalize_tab (normalize_tab tab),
           role := "user", content := pyStrip prompt },
         { user_id := u.id, tab := normalize_tab (normalize_tab tab),
           role := "assistant", content := keyMissingNotice }]
    ∧ (generate st u token now tab prompt false pr).2.events = st.events) := by
  simp [generate, hacc, hp, store_message]

/-- Witness for C8 at a concrete input: owner session and prompt "hi",
with a successful provider outcome. -/
theorem generate_persists_turns_and_tagged_analytics_witness :
    (generate genFixtureState genFixtureUser "t1" 0 "chat" "hi" true
        (.ok "sure")).2.events
      = genFixtureState.events ++
        [{ user_id := genFixtureUser.id, event := "generate",
           tab := normalize_tab "chat" }] :=
  ((generate_persists_turns_and_tagged_analytics genFixtureState
      genFixtureUser "t1" "chat" "hi" 0 (.ok "sure") rfl (by decide)).1).2

/-- A state holding one registered user with email "u@example.com", used
for the duplicate-registration claim. -/
def dupFixtureState : DBState :=
  { users := [{ id := 1, email := "u@example.com", pass_hash := "h",
                pass_salt := "s", created_at := some 0, is_owner := false,
                stripe_customer_id := "", plan := "free",
                subscription_status := "none" }],
    sessions := [], subs := [], messages := [], events := [],
    nextUserId := 2, nextSessionId := 1, nextSubId := 1 }

/-- C6 counterexample: registering "U@Example.com" when "u@example.com"
already exists hits the UNIQUE(email) constraint and the handler raises
HTTP 409 "Account already exists. Please log in." — 409 is neither the
claimed 400 nor 401, and the message names the account's existence rather
than generic wording. -/
theorem duplicate_email_registration_is_409 :
    auth_register dupFixtureState "U@Example.com" "secret1" "salt2" "tok2" 5
      = (.error (409, "Account already exists. Please log in."), dupFixtureState)
    ∧ ¬ ((409 : Nat) = 400 ∨ (409 : Nat) = 401) :=
  ⟨rfl, by decide⟩

/-- C6 amended: registering with an email whose normalized (stripped,
lower-cased) form already exists fails with HTTP 409 ("Account already
exists. Please log in."), and the attempt creates no new user row — the
state is returned untouched. -/
theorem duplicate_email_no_new_row (st : DBState)
    (em pw salt tok : String) (now : Int)
    (hlen : ¬ (pyStrip pw).length < 6)
    (hdup : st.users.any (fun u => u.email = normEmail em) = true) :
    auth_register st em pw salt tok now
      = (.error (409, "Account already exists. Please log in."), st) := by
  simp only [auth_register, if_neg hlen, hdup, if_true]

/-- Witness for C6 at a concrete input: re-registering the fixture email
with password "secret1". -/
theorem duplicate_email_no_new_row_witness :
    auth_register dupFixtureState "u@example.com" "secret1" "salt2" "tok2" 5
      = (.error (409, "Account already exists. Please log in."), dupFixtureState) :=
  duplicate_email_no_new_row dupFixtureState "u@example.com" "secret1"
    "salt2" "tok2" 5 (by decide) (by decide)

/-- A Stripe price configuration for the plan-mapping claim. -/
def priceFixtureCfg : StripeConfig :=
  { pro_price_id := "price_pro", patron_price_id := "price_patron" }

/-- A state holding one user whose stored stripe customer id is "cus_1",
used for the subscription-event claims. -/
def priceFixtureState : DBState :=
  { users := [{ id := 1, email := "u@example.com", pass_hash := "h",
                pass_salt := "s", created_at := some 0, is_owner := false,
                stripe_customer_id := "cus_1", plan := "free",
                subscription_status := "none" }],
    sessions := [], subs := [], messages := [], events := [],
    nextUserId := 2, nextSessionId := 1, nextSubId := 1 }

/-- C9 counterexample: a `customer.subscription.updated` event whose line
item carries the unknown price id "price_unknown" is acknowledged with
200 and upserts a row whose plan tag is "basic" — not the generic "paid"
tag the claim names (and the comparison is against the configured
pro/patron env price ids, not a lookup table containing a "paid"
entry). -/
theorem unknown_price_becomes_basic_not_paid :
    (stripe_webhook priceFixtureCfg true true true
        (.subscriptionUpdated { customer := "cus_1", id := "sub_9",
                                status := "active",
                                price_id := some "price_unknown" })
        priceFixtureState)
      = (200,
         { priceFixtureState with
             subs := [{ id := 1, user_id := 1, stripe_customer_id := "cus_1",
                        stripe_subscription_id := "sub_9", status := "active",
                        plan := "basic" }],
             nextSubId := 2 })
    ∧ ¬ ("basic" = "paid") :=
  ⟨rfl, by decide⟩

/-- C9 amended: on subscription updated/deleted events the line-item price
id is compared against the configured pro and patron price ids; a price id
matching neither — or an unreadable/empty line-item list — degrades to the
"basic" plan tag rather than failing, and the webhook still acknowledges
every such signature-verified event with HTTP 200. -/
theorem unknown_price_degrades_to_basic (cfg : StripeConfig) (pid : String)
    (hpro : ¬ pyStrip pid = cfg.pro_price_id)
    (hpat : ¬ pyStrip pid = cfg.patron_price_id) :
    planFromPrice cfg (some pid) = "basic"
    ∧ planFromPrice cfg none = "basic"
    ∧ (∀ (o : SubEventObj) (st : DBState),
        (stripe_webhook cfg true true true (.subscriptionUpdated o) st).1 = 200) := by
  refine ⟨by simp [planFromPrice, hpro, hpat], rfl, ?_⟩
  intro o st
  simp [stripe_webhook]

/-- Witness for C9 at a concrete input: the unknown price id
"price_unknown" against the fixture configuration. -/
theorem unknown_price_degrades_to_basic_witness :
    planFromPrice priceFixtureCfg (some "price_unknown") = "basic" :=
  (unknown_price_degrades_to_basic priceFixtureCfg "price_unknown"
    (by decide) (by decide)).1

/-- Number of subscription rows stored for a user. -/
def countSubsFor (st : DBState) (uid : Nat) : Nat :=
  (st.subs.filter (fun r => r.user_id = uid)).length

/-- The subscription row inserted by the `checkout.session.completed`
branch for a resolved user. -/
def checkoutSubRow (o : CheckoutObj) (uid subId : Nat) : SubRow :=
  { id := subId, user_id := uid, stripe_customer_id := o.customer,
    stripe_subscription_id := o.subscription, status := "trialing",
    plan := checkoutPlan o }

/-- Helper: an email search commutes with a row map that preserves
emails. -/
theorem find?_email_map (e : String) (f : UserRow → UserRow)
    (hf : ∀ u, (f u).email = u.email) (l : List UserRow) :
    (l.map f).find? (fun u => u.email = e)
      = (l.find? (fun u => u.email = e)).map f := by
  induction l with
  | nil => rfl
  | cons a t ih =>
    simp only [List.map_cons]
    by_cases h : a.email = e
    · rw [List.find?_cons_of_pos _ (by simp [hf, h]),
        List.find?_cons_of_pos _ (by simp [h])]
      rfl
    · rw [List.find?_cons_of_neg _ (by simp [hf, h]),
        List.find?_cons_of_neg _ (by simp [h]), ih]

/-- Helper: checkout user resolution is unchanged by a row map preserving
emails and ids (such as storing the stripe customer id). -/
theorem resolve_checkout_user_map (o : CheckoutObj) (f : UserRow → UserRow)
    (hfe : ∀ u, (f u).email = u.email) (hfi : ∀ u, (f u).id = u.id)
    (l : List UserRow) :
    resolve_checkout_user (l.map f) o = resolve_checkout_user l o := by
  unfold resolve_checkout_user
  cases o.meta_user_id with
  | some n => rfl
  | none =>
    by_cases he : o.email = ""
    · simp [he]
    · simp only [if_neg he]
      rw [find?_email_map _ f hfe]
      cases l.find? (fun u => u.email = normEmail o.email) with
      | none => rfl
      | some u => simp [hfi]

/-- Helper: appending a matching row with a strictly larger id makes it
the latest subscription row for the user. -/
theorem latestSubFor_append_newest (l : List SubRow) (r : SubRow) (uid : Nat)
    (hr : r.user_id = uid) (hmax : ∀ s ∈ l, s.id < r.id) :
    latestSubFor (l ++ [r]) uid = some r := by
  induction l with
  | nil => simp [latestSubFor, hr]
  | cons a t ih =>
    have ha : a.id < r.id := hmax a (by simp)
    have ht : ∀ s ∈ t, s.id < r.id := fun s hs => hmax s (List.mem_cons_of_mem _ hs)
    simp only [List.cons_append, latestSubFor, List.append_eq]
    rw [ih ht]
    by_cases h : a.user_id = uid
    · have hlt : ¬ r.id < a.id := by omega
      simp [h, hlt]
    · simp [h]

/-- Helper: the derived subscription state after such an append is decided
by the appended row's status. -/
theorem user_has_active_subscription_append (l : List SubRow) (r : SubRow)
    (uid : Nat) (hr : r.user_id = uid) (hmax : ∀ s ∈ l, s.id < r.id) :
    user_has_active_subscription (l ++ [r]) uid
      = (pyLower r.status = "active" || pyLower r.status = "trialing") := by
  simp [user_has_active_subscription, latestSubFor_append_newest l r uid hr hmax]

/-- The checkout event used for the idempotency claim: metadata resolves
user 1, plan "basic". -/
def checkoutFixtureObj : CheckoutObj :=
  { customer := "cus_1", subscription := "sub_1", email := "",
    meta_user_id := some 1, meta_plan := some "basic" }

/-- C2 counterexample: delivering the same `checkout.session.completed`
event twice to a state with one user and no subscriptions leaves TWO
subscription rows for that user, not one — the checkout branch INSERTs
unconditionally instead of upserting, so the state after the second
delivery differs from the state after one delivery. -/
theorem checkout_event_twice_leaves_two_rows :
    countSubsFor
      (stripe_webhook priceFixtureCfg true true true
        (.checkoutCompleted checkoutFixtureObj)
        (stripe_webhook priceFixtureCfg true true true
          (.checkoutCompleted checkoutFixtureObj) dupFixtureState).2).2 1 = 2
    ∧ ¬ ((2 : Nat) = 1) :=
  ⟨rfl, by decide⟩

/-- C2 amended: the `checkout.session.completed` branch is NOT idempotent
at the row level: each delivery appends one more subscription row (plain
INSERT, no upsert), so after the second delivery the user has one more row
than after the first, the second row duplicating the first's customer id,
subscription id, status and plan with a fresh primary key.  The derived
subscription state read by the access check — the latest row's status —
is nevertheless the same after two deliveries as after one. -/
theorem checkout_duplicate_accumulates_but_converges (o : CheckoutObj)
    (st : DBState) (uid : Nat)
    (hres : resolve_checkout_user st.users o = some uid)
    (hids : ∀ r ∈ st.subs, r.id < st.nextSubId) :
    (handleCheckoutCompleted o st).subs
      = st.subs ++ [checkoutSubRow o uid st.nextSubId]
    ∧ (handleCheckoutCompleted o (handleCheckoutCompleted o st)).subs
      = st.subs ++ [checkoutSubRow o uid st.nextSubId,
                    checkoutSubRow o uid (st.nextSubId + 1)]
    ∧ countSubsFor (handleCheckoutCompleted o st) uid = countSubsFor st uid + 1
    ∧ countSubsFor (handleCheckoutCompleted o (handleCheckoutCompleted o st)) uid
      = countSubsFor st uid + 2
    ∧ user_has_active_subscription
        (handleCheckoutCompleted o (handleCheckoutCompleted o st)).subs uid
      = user_has_active_subscription (handleCheckoutCompleted o st).subs uid
    ∧ user_has_active_subscription (handleCheckoutCompleted o st).subs uid
      = true := by
  have hone : handleCheckoutCompleted o st
      = { st with
          users := st.users.map
            (fun u => if u.id = uid then { u with stripe_customer_id := o.customer } else u),
          subs := st.subs ++ [checkoutSubRow o uid st.nextSubId],
          nextSubId := st.nextSubId + 1 } := by
    simp only [handleCheckoutCompleted, hres, checkoutSubRow]
  have hres2 : resolve_checkout_user (handleCheckoutCompleted o st).users o = some uid := by
    rw [hone]
    rw [resolve_checkout_user_map o _
      (fun u => by by_cases h : u.id = uid <;> simp [h])
      (fun u => by by_cases h : u.id = uid <;> simp [h])]
    exact hres
  have hgen : ∀ st2 : DBState, resolve_checkout_user st2.users o = some uid →
      (handleCheckoutCompleted o st2).subs
        = st2.subs ++ [checkoutSubRow o uid st2.nextSubId]
      ∧ (handleCheckoutCompleted o st2).nextSubId = st2.nextSubId + 1 := by
    intro st2 h
    constructor <;> simp only [handleCheckoutCompleted, h, checkoutSubRow]
  have htwo : (handleCheckoutCompleted o (handleCheckoutCompleted o st)).subs
      = st.subs ++ [checkoutSubRow o uid st.nextSubId,
                    checkoutSubRow o uid (st.nextSubId + 1)] := by
    rw [(hgen _ hres2).1, (hgen _ hres).1, (hgen _ hres).2, List.append_assoc]
    rfl
  have hmax1 : ∀ s ∈ st.subs, s.id < (checkoutSubRow o uid st.nextSubId).id :=
    fun s hs => hids s hs
  have hmax2 : ∀ s ∈ st.subs ++ [checkoutSubRow o uid st.nextSubId],
      s.id < (checkoutSubRow o uid (st.nextSubId + 1)).id := by
    intro s hs
    rcases List.mem_append.1 hs with h | h
    · have := hids s h; simp [checkoutSubRow] at *; omega
    · simp at h; subst h; simp [checkoutSubRow]
  refine ⟨(hgen _ hres).1, htwo, ?_, ?_, ?_, ?_⟩
  · simp only [countSubsFor]
    rw [(hgen _ hres).1]
    simp [List.filter_append, checkoutSubRow]
  · simp only [countSubsFor]
    rw [htwo]
    simp [List.filter_append, checkoutSubRow]
  · rw [htwo, (hgen _ hres).1]
    have h2 : st.subs ++ [checkoutSubRow o uid st.nextSubId,
        checkoutSubRow o uid (st.nextSubId + 1)]
      = (st.subs ++ [checkoutSubRow o uid st.nextSubId])
        ++ [checkoutSubRow o uid (st.nextSubId + 1)] := by simp
    rw [h2,
      user_has_active_subscription_append _ _ uid rfl hmax2,
      user_has_active_subscription_append _ _ uid rfl hmax1]
    simp [checkoutSubRow]
  · rw [(hgen _ hres).1,
      user_has_active_subscription_append _ _ uid rfl hmax1]
    simp [checkoutSubRow]
    decide

/-- Witness for C2 at a concrete input: the fixture event applied to the
one-user no-subscription state. -/
theorem checkout_duplicate_accumulates_but_converges_witness :
    countSubsFor
      (handleCheckoutCompleted checkoutFixtureObj
        (handleCheckoutCompleted checkoutFixtureObj dupFixtureState)) 1
      = countSubsFor dupFixtureState 1 + 2 :=
  ((checkout_duplicate_accumulates_but_converges checkoutFixtureObj
      dupFixtureState 1 rfl (by decide)).2.2.2).1

/-- Helper: `find?` skips a prefix containing no match. -/
theorem find?_append_of_none {α : Type} (p : α → Bool) (l1 l2 : List α)
    (h : l1.find? p = none) : (l1 ++ l2).find? p = l2.find? p := by
  induction l1 with
  | nil => rfl
  | cons a t ih =>
    by_cases hpa : p a
    · rw [List.find?_cons_of_pos _ hpa] at h
      exact absurd h (by simp)
    · rw [List.find?_cons_of_neg _ hpa] at h
      rw [List.cons_append, List.find?_cons_of_neg _ hpa]
      exact ih h

/-- Helper: a token search commutes with a session map preserving
tokens. -/
theorem find?_token_map (tok : String) (f : SessionRow → SessionRow)
    (hf : ∀ s, (f s).token = s.token) (l : List SessionRow) :
    (l.map f).find? (fun s => s.token = tok)
      = (l.find? (fun s => s.token = tok)).map f := by
  induction l with
  | nil => rfl
  | cons a t ih =>
    simp only [List.map_cons]
    by_cases h : a.token = tok
    · rw [List.find?_cons_of_pos _ (by simp [hf, h]),
        List.find?_cons_of_pos _ (by simp [h])]
      rfl
    · rw [List.find?_cons_of_neg _ (by simp [hf, h]),
        List.find?_cons_of_neg _ (by simp [h]), ih]

/-- Helper: a successful `get_current_user` leaves the state unchanged and
pins down the session row found for the token. -/
theorem get_current_user_ok (st : DBState) (token : String) (now : Int)
    (r : UserRow) (st1 : DBState)
    (h : get_current_user st token now = (.ok r, st1)) :
    st1 = st ∧ ∃ sess, findSession st.sessions token = some sess
      ∧ sess.token = token := by
  by_cases ht : token = ""
  · simp [get_current_user, ht] at h
  · rcases hf : findSession st.sessions token with _ | sess
    · simp [get_current_user, ht, hf] at h
    · have htok : sess.token = token := by
        have h2 : st.sessions.find? (fun s => decide (s.token = token)) = some sess := hf
        have h3 := List.find?_some h2
        simpa using h3
      by_cases he : sess.expires_at < now
      · simp [get_current_user, ht, hf, he] at h
      · rcases hu : findUser st.users sess.user_id with _ | u
        · simp [get_current_user, ht, hf, he, hu] at h
        · simp only [get_current_user, if_neg ht, hf, if_neg he, hu,
            Prod.mk.injEq] at h
          exact ⟨h.2.symm, sess, rfl, htok⟩

/-- C3: owner elevation is session-scoped in effect.  A submitted code
failing the `hmac.compare_digest` check is rejected with 401 and the state
is untouched; a successful elevation flips the current session's
`is_owner` flag (re-presenting the code on a later session elevates that
session the same way).  Sessions created by login/register are always
inserted with `is_owner = 0`, so a fresh session for the same user is not
an owner session and the owner-only admin endpoint rejects it with 403;
and the access gate gives a non-owner session no owner bypass — its
outcome does not depend on the user row at all (it is the AttributeError
path, not an owner allow), so the persistent `users.is_owner` column that
`owner_login` also writes never grants access to a fresh session. -/
theorem owner_elevation_session_scoped (st : DBState)
    (ownerCode code token : String) (now : Int) :
    (¬ ownerCode = "" → constantTimeEq code ownerCode = false →
      owner_login st ownerCode code token now = (.error 401, st))
    ∧ (∀ st1, owner_login st ownerCode code token now = (.ok (), st1) →
      is_owner_session st1.sessions token = true)
    ∧ (∀ (uid : Nat) (tok2 : String) (now2 : Int), ¬ tok2 = "" →
      st.sessions.find? (fun s => s.token = tok2) = none →
      is_owner_session (create_session st uid tok2 now2).sessions tok2 = false
      ∧ admin_analytics_gate (create_session st uid tok2 now2) tok2 = .error 403)
    ∧ (∀ u2 : UserRow, is_owner_session st.sessions token = false →
      require_access st token u2 now
        = require_access st token { u2 with is_owner := false } now
      ∧ ¬ require_access st token u2 now = .allowed) := by
  refine ⟨?_, ?_, ?_, ?_⟩
  · intro h0 h1
    simp [owner_login, h0, h1]
  · intro st1 hsucc
    by_cases h0 : ownerCode = ""
    · simp [owner_login, h0] at hsucc
    · by_cases h1 : constantTimeEq code ownerCode
      · rcases hgcu : get_current_user st token now with ⟨r, st2⟩
        simp only [owner_login, if_neg h0, h1, not_true_eq_false, if_false, hgcu] at hsucc
        cases r with
        | error e => simp at hsucc
        | ok u =>
          by_cases ht : token = ""
          · simp [ht] at hsucc
          · simp only [if_neg ht, Prod.mk.injEq] at hsucc
            obtain ⟨hst2, sess, hfind, htok⟩ :=
              get_current_user_ok st token now u st2 hgcu
            have hsess1 : st1.sessions = st2.sessions.map
                (fun s => if s.token = token then { s with is_owner := true } else s) := by
              rw [← hsucc.2]
            have hfind2 : st2.sessions.find? (fun s => s.token = token) = some sess := by
              rw [hst2]; exact hfind
            have hmap : (st2.sessions.map
                (fun s => if s.token = token then { s with is_owner := true } else s)).find?
                  (fun s => s.token = token)
                = some { sess with is_owner := true } := by
              rw [find?_token_map token
                (fun s => if s.token = token then { s with is_owner := true } else s)
                (fun s => by by_cases hs : s.token = token <;> simp [hs])]
              rw [hfind2]
              simp [htok]
            simp only [is_owner_session, if_neg ht, findSession, hsess1]
            rw [hmap]
      · simp [owner_login, h0, h1] at hsucc
  · intro uid tok2 now2 htok2 hfresh
    have hfind : findSession (create_session st uid tok2 now2).sessions tok2
        = some { id := st.nextSessionId, user_id := uid, token := tok2,
                 expires_at := now2 + SESSION_TTL_DAYS * day, is_owner := false } := by
      simp only [create_session, findSession]
      rw [find?_append_of_none _ _ _ hfresh]
      simp
    constructor
    · simp only [is_owner_session, if_neg htok2]
      rw [hfind]
    · simp only [admin_analytics_gate, is_owner_session, if_neg htok2]
      rw [hfind]
      simp
  · intro u2 hsess
    exact ⟨by simp [require_access, hsess], by simp [require_access, hsess]⟩

/-- Witness for C3 at a concrete input: a wrong code against configured
code "C0DE" is rejected without mutation, and a fresh session with token
"t2" on the fixture state is not an owner session. -/
theorem owner_elevation_session_scoped_witness :
    owner_login dupFixtureState "C0DE" "WRONG" "tok" 0 = (.error 401, dupFixtureState)
    ∧ is_owner_session (create_session dupFixtureState 1 "t2" 0).sessions "t2" = false :=
  ⟨(owner_elevation_session_scoped dupFixtureState "C0DE" "WRONG" "tok" 0).1
      (by decide) (by decide),
   ((owner_elevation_session_scoped dupFixtureState "C0DE" "WRONG" "tok" 0).2.2.1
      1 "t2" 0 (by decide) rfl).1⟩

end Bookworm
